import Mathlib

/-!
Verification of the navigation repository's static costmap layer
(`costmap_2d/plugins/static_layer.cpp`) and DWA local planner
(`dwa_local_planner/src/dwa_planner.cpp`, `dwa_planner_ros.cpp`)
against its natural-language specification.

The embedding is shallow: grids are lists of octet values (`Nat`,
bounded by 255 where it matters), world coordinates and velocities are
rationals (`ℚ`), and the C++ member functions become pure Lean
functions on explicit state.  Helpers of the repository that live
outside the provided sources (Costmap2D accessors, CostmapLayer update
helpers, base_local_planner goal functions) are modelled from the
specification and say so in their doc comments.
-/

namespace Nav

/-- Grid cell constant `FREE_SPACE` (costmap_2d cost value 0). -/
def FREE_SPACE : Nat := 0

/-- Grid cell constant `INSCRIBED_INFLATED_OBSTACLE` (costmap_2d cost value 253). -/
def INSCRIBED : Nat := 253

/-- Grid cell constant `LETHAL_OBSTACLE` (costmap_2d cost value 254). -/
def LETHAL_OBSTACLE : Nat := 254

/-- Grid cell constant `NO_INFORMATION` (costmap_2d cost value 255). -/
def NO_INFORMATION : Nat := 255

/-- A costmap: rectangular grid of octet cell values with world
geometry, as in `Costmap2D` (§3 of the spec: `size_x`, `size_y`,
`resolution`, world origin, dense cell buffer, row-major). -/
structure Costmap where
  size_x : Nat
  size_y : Nat
  resolution : ℚ
  origin_x : ℚ
  origin_y : ℚ
  cells : List Nat
  deriving Repr, DecidableEq

/-- Modelled from the spec: `get_cost` of §3.  Row-major lookup
`cells[my * size_x + mx]` (the `Costmap2D` accessor itself is not under
`src/`); out-of-range reads default to 0. -/
def Costmap.getCost (m : Costmap) (mx my : Nat) : Nat :=
  m.cells.getD (my * m.size_x + mx) 0

/-- Modelled from the spec: `set_cost` of §3.  Row-major store
`cells[my * size_x + mx] := v`; out-of-range stores are dropped. -/
def Costmap.setCost (m : Costmap) (mx my v : Nat) : Costmap :=
  { m with cells := m.cells.set (my * m.size_x + mx) v }

/-- Modelled from the spec: `map_to_world` of §3, as used by
`updateBounds`/`updateCosts`: the world coordinate of the center of
cell `(mx, my)`. -/
def Costmap.mapToWorld (m : Costmap) (mx my : Nat) : ℚ × ℚ :=
  (m.origin_x + (mx + 1/2) * m.resolution,
   m.origin_y + (my + 1/2) * m.resolution)

/-- Modelled from the spec: `world_to_map` of §3.  Truncating
projection of a world point onto the grid, `none` when the point falls
outside. -/
def Costmap.worldToMap (m : Costmap) (wx wy : ℚ) : Option (Nat × Nat) :=
  if wx < m.origin_x ∨ wy < m.origin_y then none
  else
    let mx := (⌊(wx - m.origin_x) / m.resolution⌋).toNat
    let my := (⌊(wy - m.origin_y) / m.resolution⌋).toNat
    if mx < m.size_x ∧ my < m.size_y then some (mx, my) else none

/-- A costmap is well formed when its buffer length matches its shape
(spec §3, invariant 1). -/
def Costmap.WF (m : Costmap) : Prop :=
  m.cells.length = m.size_x * m.size_y

/-- Static layer configuration, fixed at initialization (spec §4.1).
`lethal_threshold` is clamped to `[0, 100]` at initialization;
`unknown_cost_value` is stored as an octet (the default `-1` becomes
`255`). -/
structure StaticLayerConfig where
  track_unknown_space : Bool
  use_maximum : Bool
  trinary_costmap : Bool
  enabled : Bool
  lethal_threshold : Nat
  unknown_cost_value : Nat
  deriving Repr, DecidableEq

/-- `StaticLayer::interpretValue` (static_layer.cpp lines 124-138).
The final branch of the source computes `(double)value /
lethal_threshold_ * LETHAL_OBSTACLE` and converts the `double` to
`unsigned char`, which truncates toward zero.  For `value ≤ 255` and
`1 ≤ lethal_threshold ≤ 100` that is exactly `(value * 254) /
lethal_threshold` in truncated integer division: whenever the exact
rational `value * 254 / t` is an integer, `t` divides `2 * value`
(254 = 2 * 127 and 127 is prime, larger than any admissible `t`), so
`value / t` is a dyadic half-integer and the double arithmetic is
exact; otherwise the exact value is at least `1/t ≥ 1/100` away from
any integer, far beyond the rounding error of two double operations. -/
def interpretValue (cfg : StaticLayerConfig) (value : Nat) : Nat :=
  if cfg.track_unknown_space ∧ value = cfg.unknown_cost_value then NO_INFORMATION
  else if ¬cfg.track_unknown_space ∧ value = cfg.unknown_cost_value then FREE_SPACE
  else if cfg.lethal_threshold ≤ value then LETHAL_OBSTACLE
  else if cfg.trinary_costmap then FREE_SPACE
  else (value * LETHAL_OBSTACLE) / cfg.lethal_threshold

/-- Mutable state of the static layer: configuration, the private grid
(the layer *is* a `Costmap2D` in the source), the dirty rectangle
`(x, y, width, height)` in cells, and the bookkeeping flags
(static_layer.h members, set by static_layer.cpp). -/
structure StaticLayerState where
  cfg : StaticLayerConfig
  grid : Costmap
  x : Nat
  y : Nat
  width : Nat
  height : Nat
  map_received : Bool
  has_updated_data : Bool
  has_extra_bounds : Bool
  extra_min_x : ℚ
  extra_min_y : ℚ
  extra_max_x : ℚ
  extra_max_y : ℚ
  deriving Repr, DecidableEq

/-- Layered costmap orchestrator state, as seen by the static layer:
rolling flag, size-locked flag, and the master costmap (spec §6,
`LayeredCostmap`). -/
structure LayeredCostmap where
  rolling : Bool
  size_locked : Bool
  master : Costmap
  deriving Repr, DecidableEq

/-- An occupancy snapshot (spec §3/§6): shape, geometry and a row-major
cell buffer.  Cell values are stored as octets; the signed `-1` of the
wire format arrives as `255` after the source's `unsigned char`
conversion. -/
structure OccupancyGrid where
  width : Nat
  height : Nat
  resolution : ℚ
  origin_x : ℚ
  origin_y : ℚ
  data : List Nat
  deriving Repr, DecidableEq

/-- An occupancy patch (spec §3/§6): origin cell, shape, and cells
already in final encoding. -/
structure OccupancyGridUpdate where
  x : Nat
  y : Nat
  width : Nat
  height : Nat
  data : List Nat
  deriving Repr, DecidableEq

/-- Modelled from the spec: `Costmap2D::resizeMap` is not under
`src/`.  Resizing reshapes the grid and resets the buffer to the
layer's default value (`NO_INFORMATION`); `incomingMap` immediately
rewrites every cell afterwards, so the fill value is never observed by
the claims. -/
def Costmap.resized (m : Costmap) (sx sy : Nat) (res ox oy : ℚ) : Costmap :=
  { m with size_x := sx, size_y := sy, resolution := res,
           origin_x := ox, origin_y := oy,
           cells := List.replicate (sx * sy) NO_INFORMATION }

/-- The resize phase of `StaticLayer::incomingMap` (static_layer.cpp
lines 146-163).  The call `layered_costmap_->resizeMap(..., true)` is
not under `src/`; modelled from the spec (§4.1 resize policy together
with §3 invariant 3: the orchestrator resize keeps the master and the
layer's private grid in the same shape, and locks the size). -/
def incomingMapResize (lc : LayeredCostmap) (st : StaticLayerState)
    (new_map : OccupancyGrid) : LayeredCostmap × StaticLayerState :=
  let size_x := new_map.width
  let size_y := new_map.height
  let toSnap : Costmap → Costmap := fun m =>
    m.resized size_x size_y new_map.resolution new_map.origin_x new_map.origin_y
  if ¬lc.rolling ∧ (lc.master.size_x ≠ size_x ∨ lc.master.size_y ≠ size_y ∨
      lc.master.resolution ≠ new_map.resolution ∨
      lc.master.origin_x ≠ new_map.origin_x ∨
      lc.master.origin_y ≠ new_map.origin_y ∨ ¬lc.size_locked) then
    ({ lc with master := toSnap lc.master, size_locked := true },
     { st with grid := toSnap st.grid })
  else if st.grid.size_x ≠ size_x ∨ st.grid.size_y ≠ size_y ∨
      st.grid.resolution ≠ new_map.resolution ∨
      st.grid.origin_x ≠ new_map.origin_x ∨
      st.grid.origin_y ≠ new_map.origin_y then
    (lc, { st with grid := toSnap st.grid })
  else (lc, st)

/-- `StaticLayer::incomingMap` (static_layer.cpp lines 140-182):
resize phase, then the full private-grid rewrite, then dirty rectangle
and flags.  The source reads `new_map->data[index]` without any length
check; the unchecked read is modelled with `getD _ 0`.  The double
rewrite loop (`for i < size_y, for j < size_x, setCost(j, i,
interpretValue data[index++])`) is embedded as the equivalent nested
fold with `index = i * size_x + j`. -/
def incomingMap (lc : LayeredCostmap) (st : StaticLayerState)
    (new_map : OccupancyGrid) : LayeredCostmap × StaticLayerState :=
  let size_x := new_map.width
  let size_y := new_map.height
  let resized := incomingMapResize lc st new_map
  let lc2 := resized.1
  let st2 := resized.2
  let grid :=
    (List.range size_y).foldl (fun g i =>
      (List.range size_x).foldl (fun g2 j =>
        g2.setCost j i (interpretValue st2.cfg (new_map.data.getD (i * size_x + j) 0))) g)
      st2.grid
  (lc2,
   { st2 with grid := grid, x := 0, y := 0,
              width := grid.size_x, height := grid.size_y,
              map_received := true, has_updated_data := true })

/-- `StaticLayer::incomingUpdate` (static_layer.cpp lines 184-200).
The source computes `index_base = (update->y + y) * update->width` but
never uses it: the write goes to `setCost(x, y, update->data[di++])`,
ignoring the patch origin `(update->x, update->y)`.  The embedding
reproduces that verbatim; `di` equals `y * update.width + x`. -/
def incomingUpdate (st : StaticLayerState) (update : OccupancyGridUpdate) :
    StaticLayerState :=
  let grid :=
    (List.range update.height).foldl (fun g y =>
      (List.range update.width).foldl (fun g2 x =>
        g2.setCost x y (update.data.getD (y * update.width + x) 0)) g)
      st.grid
  { st with grid := grid, x := update.x, y := update.y,
            width := update.width, height := update.height,
            has_updated_data := true }

/-- Modelled from the spec: `CostmapLayer::useExtraBounds` is not under
`src/`.  Spec §4.1 (`update_bounds`): when extra bounds were pushed by
a caller they are merged into the passed bounds; the flag is cleared. -/
def useExtraBounds (st : StaticLayerState) (min_x min_y max_x max_y : ℚ) :
    (ℚ × ℚ × ℚ × ℚ) × StaticLayerState :=
  if st.has_extra_bounds then
    ((min st.extra_min_x min_x, min st.extra_min_y min_y,
      max st.extra_max_x max_x, max st.extra_max_y max_y),
     { st with has_extra_bounds := false })
  else ((min_x, min_y, max_x, max_y), st)

/-- `StaticLayer::updateBounds` (static_layer.cpp lines 220-242).
Returns the (possibly expanded) bounds and the successor state.  The
robot pose arguments are unused by the source as well. -/
def updateBounds (st : StaticLayerState) (_robot_x _robot_y _robot_yaw : ℚ)
    (min_x min_y max_x max_y : ℚ) : (ℚ × ℚ × ℚ × ℚ) × StaticLayerState :=
  if ¬st.cfg.enabled then ((min_x, min_y, max_x, max_y), st)
  else if ¬st.map_received ∨ ¬(st.has_updated_data ∨ st.has_extra_bounds) then
    ((min_x, min_y, max_x, max_y), st)
  else
    let eb := useExtraBounds st min_x min_y max_x max_y
    let st2 := eb.2
    let b := eb.1
    let w1 := st2.grid.mapToWorld st2.x st2.y
    let w2 := st2.grid.mapToWorld (st2.x + st2.width) (st2.y + st2.height)
    ((min w1.1 b.1, min w1.2 b.2.1, max w2.1 b.2.2.1, max w2.2 b.2.2.2),
     { st2 with has_updated_data := false })

/-- Modelled from the spec: `CostmapLayer::updateWithTrueOverwrite` is
not under `src/`.  Spec §4.1 (`update_costs`, non-rolling,
`use_maximum` false): stamp the private grid directly onto the master
rectangle, including `NO_INFO`. -/
def updateWithTrueOverwrite (grid master : Costmap)
    (min_i min_j max_i max_j : Nat) : Costmap :=
  (List.range (max_i - min_i)).foldl (fun m di =>
    (List.range (max_j - min_j)).foldl (fun m2 dj =>
      m2.setCost (min_i + di) (min_j + dj)
        (grid.getCost (min_i + di) (min_j + dj))) m) master

/-- Modelled from the spec: `CostmapLayer::updateWithMax` is not under
`src/`.  Spec §4.1 (`update_costs`, non-rolling, `use_maximum` true):
apply `max` per cell over the rectangle. -/
def updateWithMax (grid master : Costmap)
    (min_i min_j max_i max_j : Nat) : Costmap :=
  (List.range (max_i - min_i)).foldl (fun m di =>
    (List.range (max_j - min_j)).foldl (fun m2 dj =>
      m2.setCost (min_i + di) (min_j + dj)
        (max (grid.getCost (min_i + di) (min_j + dj))
          (m2.getCost (min_i + di) (min_j + dj)))) m) master

/-- The loop body of the rolling branch of `StaticLayer::updateCosts`
(static_layer.cpp lines 263-291), for one master cell `(i, j)`.  The
source calls `layered_costmap_->getCostmap()->mapToWorld(i, j, ...)`;
that live object is the `master_grid` reference being updated, so the
embedding projects through the accumulator `m2` (whose geometry
`setCost` never touches).  The dangling `else` chain of lines 279-288
parses as: if `track_unknown_space` then (if incoming is `LETHAL`
write it, else write `max`), else (if the old master cell is
`NO_INFORMATION` write the incoming value, else write `max`). -/
def rollingCellUpdate (st : StaticLayerState) (m2 : Costmap) (i j : Nat) :
    Costmap :=
  let w := m2.mapToWorld i j
  match st.grid.worldToMap w.1 w.2 with
  | none => m2
  | some (mx, my) =>
    let cost := st.grid.getCost mx my
    if cost = NO_INFORMATION then m2
    else if ¬st.cfg.use_maximum then m2.setCost i j cost
    else
      let old_cost := m2.getCost i j
      if st.cfg.track_unknown_space then
        if cost = LETHAL_OBSTACLE then m2.setCost i j cost
        else m2.setCost i j (max cost old_cost)
      else
        if old_cost = NO_INFORMATION then m2.setCost i j cost
        else m2.setCost i j (max cost old_cost)

/-- `StaticLayer::updateCosts` (static_layer.cpp lines 244-294). -/
def updateCosts (lc : LayeredCostmap) (st : StaticLayerState)
    (master : Costmap) (min_i min_j max_i max_j : Nat) : Costmap :=
  if ¬st.cfg.enabled then master
  else if ¬st.map_received then master
  else if ¬lc.rolling then
    if ¬st.cfg.use_maximum then
      updateWithTrueOverwrite st.grid master min_i min_j max_i max_j
    else
      updateWithMax st.grid master min_i min_j max_i max_j
  else
    (List.range (max_i - min_i)).foldl (fun m di =>
      (List.range (max_j - min_j)).foldl (fun m2 dj =>
        rollingCellUpdate st m2 (min_i + di) (min_j + dj)) m) master

/-! ### DWA local planner -/

/-- Controller states (dwa_planner.h line 70). -/
inductive LocalPlannerState where
  | Default
  | Arrive
  | Align
  | NotMoving
  | None
  deriving Repr, DecidableEq

/-- The three state-switch thresholds of the DWA planner
(dwa_planner.h lines 127-129, set by `reconfigure`). -/
structure DWASwitches where
  switch_yaw_error : ℚ
  switch_plan_distance : ℚ
  switch_goal_distance : ℚ
  deriving Repr, DecidableEq

/-- `DWAPlanner::determineState` (dwa_planner.cpp lines 182-205).
The source keeps `prev_state` in a function-local `static` variable
which it reassigns to the computed state whenever the two differ, so
it always equals the previously returned state (initially `None`);
here it is an explicit argument.  `plan_distance` is unused by the
source as well. -/
def determineState (sw : DWASwitches) (prev_state : LocalPlannerState)
    (yaw_error _plan_distance goal_distance : ℚ) : LocalPlannerState :=
  if goal_distance < sw.switch_goal_distance then .Arrive
  else if sw.switch_yaw_error < |yaw_error| ∨
      (prev_state = .Align ∧ sw.switch_yaw_error / 2 < |yaw_error|) then .Align
  else .Default

/-- A scored trajectory: originating velocity sample and scalar cost;
negative cost means illegal (base_local_planner trajectory, spec §3). -/
structure Trajectory where
  xv : ℚ
  yv : ℚ
  thetav : ℚ
  cost : ℚ
  deriving Repr, DecidableEq

/-- `setCmdVel` (dwa_planner_ros.cpp lines 54-67): the command
published for a best trajectory — the trajectory's velocities when its
cost is non-negative, zeros otherwise. -/
def setCmdVel (traj : Trajectory) : ℚ × ℚ × ℚ :=
  if 0 ≤ traj.cost then (traj.xv, traj.yv, traj.thetav) else (0, 0, 0)

/-- `DWAPlannerROS::getRobotState` (dwa_planner_ros.cpp lines
143-159).  The source returns `false` when uninitialized or when the
pose fetch fails, but its success path falls off the end of a `bool`
function without a `return`; that unspecified value is the explicit
`fallthrough` argument. -/
def getRobotState (initialized poseOk fallthrough : Bool) : Bool :=
  if ¬initialized then false
  else if ¬poseOk then false
  else fallthrough

/-- `DWAPlannerROS::getRobotStateAndLocalPlan` (dwa_planner_ros.cpp
lines 161-176).  The source calls `getRobotState` and discards its
result (no `if`!), then checks only the plan fetch and plan emptiness;
its own success path also falls off the end of a `bool` function
(argument `fallthroughSP`). -/
def getRobotStateAndLocalPlan (initialized poseOk planOk planEmpty : Bool)
    (fallthroughState fallthroughSP : Bool) : Bool :=
  let _ := getRobotState initialized poseOk fallthroughState
  if ¬planOk then false
  else if planEmpty then false
  else fallthroughSP

/-- `DWAPlannerROS::computeVelocityCommands` (dwa_planner_ros.cpp
lines 239-263).  Returns the cycle's success flag and the command
written into `cmd_vel` (`none` when the cycle aborts before
`setCmdVel`).  The best trajectory produced by `findBestPath` is an
argument; the sampler itself is outside `src/`. -/
def computeVelocityCommands (initialized poseOk planOk planEmpty : Bool)
    (fallthroughState fallthroughSP : Bool) (traj : Trajectory) :
    Bool × Option (ℚ × ℚ × ℚ) :=
  if ¬getRobotStateAndLocalPlan initialized poseOk planOk planEmpty
      fallthroughState fallthroughSP then (false, none)
  else (0 ≤ traj.cost, some (setCmdVel traj))

/-- A planar pose or velocity `(x, y, theta)` (spec §3). -/
structure Pose2D where
  x : ℚ
  y : ℚ
  th : ℚ
  deriving Repr, DecidableEq

/-- Goal-reach tolerances of `LocalPlannerLimits` (spec §3); only the
fields `isGoalReached` reads. -/
structure LocalPlannerLimits where
  xy_goal_tolerance : ℚ
  yaw_goal_tolerance : ℚ
  trans_stopped_vel : ℚ
  rot_stopped_vel : ℚ
  deriving Repr, DecidableEq

/-- Modelled from the spec:
`base_local_planner::getGoalPositionDistance` is not under `src/`; it
is the Euclidean distance from the robot to the goal.  To stay in ℚ
the *squared* distance is used; `isGoalReached` compares it against
the squared tolerance, which is equivalent for a non-negative
tolerance. -/
def getGoalPositionDistanceSq (p : Pose2D) (goal_x goal_y : ℚ) : ℚ :=
  (p.x - goal_x) ^ 2 + (p.y - goal_y) ^ 2

/-- Modelled from the spec:
`base_local_planner::getGoalOrientationAngleDifference` is not under
`src/`; it is the signed angular difference between the robot yaw and
the goal yaw (the source normalizes into `(-π, π]`; the rational
embedding keeps the unnormalized representative, which both sides of
claim C9 share). -/
def getGoalOrientationAngleDifference (p : Pose2D) (goal_yaw : ℚ) : ℚ :=
  goal_yaw - p.th

/-- Modelled from the spec: `base_local_planner::stopped` is not under
`src/`; the robot is stopped when each velocity component is within
its stopped threshold (spec §4.6). -/
def stopped (vel : Pose2D) (rot_stopped_vel trans_stopped_vel : ℚ) : Bool :=
  |vel.th| ≤ rot_stopped_vel ∧ |vel.x| ≤ trans_stopped_vel ∧
    |vel.y| ≤ trans_stopped_vel

/-- `DWAPlannerROS::isGoalReached` (dwa_planner_ros.cpp lines
218-237).  `stateOk` is the result of the `getRobotState` guard (see
`getRobotState` for its fall-through), `goalOk` the result of
`planner_util_.getGoal`. -/
def isGoalReached (stateOk goalOk : Bool) (robot_pose robot_vel goal : Pose2D)
    (l : LocalPlannerLimits) : Bool :=
  if ¬stateOk then false
  else if ¬goalOk then false
  else
    let xySqToGoal := getGoalPositionDistanceSq robot_pose goal.x goal.y
    let angle_to_goal := getGoalOrientationAngleDifference robot_pose goal.th
    let stop := stopped robot_vel l.rot_stopped_vel l.trans_stopped_vel
    if xySqToGoal ≤ l.xy_goal_tolerance ^ 2 ∧
        |angle_to_goal| ≤ l.yaw_goal_tolerance ∧ stop then true
    else false

/-! ### Spec-side readings, for comparison with the source embedding -/

/-- The interpretation rule exactly as the specification words it
(§4.1 step 5: "round(`v / t * LETHAL`), clamped to `[0, LETHAL−1]`"),
for comparison with `interpretValue`. -/
def interpretSpecRound (cfg : StaticLayerConfig) (value : Nat) : Nat :=
  if cfg.track_unknown_space ∧ value = cfg.unknown_cost_value then NO_INFORMATION
  else if ¬cfg.track_unknown_space ∧ value = cfg.unknown_cost_value then FREE_SPACE
  else if cfg.lethal_threshold ≤ value then LETHAL_OBSTACLE
  else if cfg.trinary_costmap then FREE_SPACE
  else
    min (LETHAL_OBSTACLE - 1)
      (round ((value : ℚ) / cfg.lethal_threshold * LETHAL_OBSTACLE)).toNat

/-- The interpretation rule with the rounding amended to the
truncation the source performs (`unsigned char` conversion of the
`double`), still clamped to `[0, LETHAL−1]` as the spec words it. -/
def interpretSpecTruncate (cfg : StaticLayerConfig) (value : Nat) : Nat :=
  if cfg.track_unknown_space ∧ value = cfg.unknown_cost_value then NO_INFORMATION
  else if ¬cfg.track_unknown_space ∧ value = cfg.unknown_cost_value then FREE_SPACE
  else if cfg.lethal_threshold ≤ value then LETHAL_OBSTACLE
  else if cfg.trinary_costmap then FREE_SPACE
  else
    min (LETHAL_OBSTACLE - 1)
      (⌊(value : ℚ) / cfg.lethal_threshold * LETHAL_OBSTACLE⌋).toNat

/-! ### Concrete fixtures used by individual claims -/

/-- Fixture: a static layer state over a 1×1 private grid holding a
single `LETHAL_OBSTACLE` cell, `track_unknown_space` and `use_maximum`
both true (claim C1). -/
def c1St : StaticLayerState :=
  { cfg := ⟨true, true, true, true, 100, 255⟩,
    grid := ⟨1, 1, 1, 0, 0, [254]⟩,
    x := 0, y := 0, width := 1, height := 1,
    map_received := true, has_updated_data := true, has_extra_bounds := false,
    extra_min_x := 0, extra_min_y := 0, extra_max_x := 0, extra_max_y := 0 }

/-- Fixture: a rolling layered costmap whose 1×1 master holds
`NO_INFORMATION`, geometrically identical to `c1St`'s grid (claim C1). -/
def c1Master : Costmap := ⟨1, 1, 1, 0, 0, [255]⟩

/-- Fixture: a static layer state whose 2×1 private grid is all free
(claim C2). -/
def c2St : StaticLayerState :=
  { cfg := ⟨true, false, true, true, 100, 255⟩,
    grid := ⟨2, 1, 1, 0, 0, [0, 0]⟩,
    x := 0, y := 0, width := 2, height := 1,
    map_received := true, has_updated_data := false, has_extra_bounds := false,
    extra_min_x := 0, extra_min_y := 0, extra_max_x := 0, extra_max_y := 0 }

/-- Fixture: a 1×1 patch with origin cell `(1, 0)` carrying the cell
value 5 (claim C2). -/
def c2Update : OccupancyGridUpdate := ⟨1, 0, 1, 1, [5]⟩

/-- Fixture: a static layer state before any map arrived (claim C5). -/
def c5St : StaticLayerState :=
  { cfg := ⟨true, false, true, true, 100, 255⟩,
    grid := ⟨2, 1, 1, 0, 0, [0, 0]⟩,
    x := 0, y := 0, width := 2, height := 1,
    map_received := false, has_updated_data := false, has_extra_bounds := false,
    extra_min_x := 0, extra_min_y := 0, extra_max_x := 0, extra_max_y := 0 }

/-- Fixture: a non-rolling layered costmap for claim C5. -/
def c5Lc : LayeredCostmap := ⟨false, false, ⟨2, 1, 1, 0, 0, [0, 0]⟩⟩

/-- Fixture: a malformed snapshot — declared shape 1×1 but a buffer of
two cells (claim C5). -/
def c5Snap : OccupancyGrid := ⟨1, 1, 1, 0, 0, [100, 100]⟩

/-- Fixture: a static layer state for the claim C8 witness. -/
def c8St : StaticLayerState :=
  { cfg := ⟨true, false, true, true, 100, 255⟩,
    grid := ⟨1, 1, 1, 0, 0, [0]⟩,
    x := 0, y := 0, width := 1, height := 1,
    map_received := false, has_updated_data := false, has_extra_bounds := false,
    extra_min_x := 0, extra_min_y := 0, extra_max_x := 0, extra_max_y := 0 }

/-- Fixture: a non-rolling layered costmap for the claim C8 witness. -/
def c8Lc : LayeredCostmap := ⟨false, false, ⟨1, 1, 1, 0, 0, [0]⟩⟩

/-- Fixture: a well-formed 2×1 snapshot for the claim C8 witness. -/
def c8Snap : OccupancyGrid := ⟨2, 1, 1, 0, 0, [100, 0]⟩

/-- Fixture: a disabled static layer (claim C10 witness). -/
def c10St : StaticLayerState :=
  { cfg := ⟨true, false, true, false, 100, 255⟩,
    grid := ⟨1, 1, 1, 0, 0, [0]⟩,
    x := 0, y := 0, width := 1, height := 1,
    map_received := true, has_updated_data := true, has_extra_bounds := false,
    extra_min_x := 0, extra_min_y := 0, extra_max_x := 0, extra_max_y := 0 }

/-- Fixture: a static layer state for the claim C1 witness (the
amended monotonicity theorem applied at a concrete input). -/
def c1wSt : StaticLayerState :=
  { cfg := ⟨false, true, true, true, 100, 255⟩,
    grid := ⟨1, 1, 1, 0, 0, [200]⟩,
    x := 0, y := 0, width := 1, height := 1,
    map_received := true, has_updated_data := true, has_extra_bounds := false,
    extra_min_x := 0, extra_min_y := 0, extra_max_x := 0, extra_max_y := 0 }

/-- Fixture: master costmap for the claim C1 witness. -/
def c1wMaster : Costmap := ⟨1, 1, 1, 0, 0, [100]⟩

/-- Monotonicity invariant relating the master cell buffer before the
maximum merge (`orig`) to an intermediate buffer (`cur`): cells only
grew except where the original was `NO_INFORMATION`, no cell has
become `NO_INFORMATION`, and all cells are octets. -/
def MonoInv (orig cur : List Nat) : Prop :=
  cur.length = orig.length
  ∧ (∀ k, orig.getD k 0 ≤ cur.getD k 0 ∨ orig.getD k 0 = NO_INFORMATION)
  ∧ (∀ k, cur.getD k 0 = NO_INFORMATION → orig.getD k 0 = NO_INFORMATION)
  ∧ (∀ c ∈ cur, c ≤ 255)

/-- Growth-only invariant: every cell grew except where the original
was `NO_INFORMATION`. -/
def GrowInv (orig cur : List Nat) : Prop :=
  ∀ k, orig.getD k 0 ≤ cur.getD k 0 ∨ orig.getD k 0 = NO_INFORMATION

/-! ### Helper lemmas -/

/-- A fold preserves any invariant its step preserves. -/
theorem foldl_preserves {α β : Type _} (P : β → Prop) (f : β → α → β)
    (hf : ∀ b a, P b → P (f b a)) :
    ∀ (l : List α) (b : β), P b → P (l.foldl f b)
  | [], _, hb => hb
  | a :: l, b, hb => foldl_preserves P f hf l (f b a) (hf b a hb)

/-- `getD` of a list of octets is an octet. -/
theorem getD_le_of_all_le {l : List Nat} (h : ∀ c ∈ l, c ≤ 255) (k : Nat) :
    l.getD k 0 ≤ 255 := by
  rw [List.getD_eq_getElem?_getD]
  cases hk : l[k]? with
  | none => simp
  | some v => exact h v (List.getElem?_mem hk)

/-- `getD` after a `set`. -/
theorem getD_set_octet (l : List Nat) (i k v : Nat) :
    (l.set i v).getD k 0 = if i = k ∧ i < l.length then v else l.getD k 0 := by
  rw [List.getD_eq_getElem?_getD, List.getD_eq_getElem?_getD, List.getElem?_set]
  by_cases h1 : i = k
  · subst h1
    by_cases h2 : i < l.length
    · simp [h2]
    · simp [h2, List.getElem?_eq_none (Nat.le_of_not_lt h2)]
  · simp [h1]

theorem monoInv_init {orig : List Nat} (h : ∀ c ∈ orig, c ≤ 255) :
    MonoInv orig orig :=
  ⟨rfl, fun _ => Or.inl le_rfl, fun _ hk => hk, h⟩

theorem monoInv_set {orig cur : List Nat} (h : MonoInv orig cur) (idx v : Nat)
    (hv1 : cur.getD idx 0 ≤ v ∨ cur.getD idx 0 = NO_INFORMATION)
    (hv2 : v = NO_INFORMATION → cur.getD idx 0 = NO_INFORMATION)
    (hv3 : v ≤ 255) :
    MonoInv orig (cur.set idx v) := by
  obtain ⟨hlen, h2, h3, h4⟩ := h
  refine ⟨by rw [List.length_set]; exact hlen, ?_, ?_, ?_⟩
  · intro k
    rw [getD_set_octet]
    by_cases hc : idx = k ∧ idx < cur.length
    · rw [if_pos hc]
      rcases hv1 with hle | hni
      · rcases h2 k with hk | hk
        · exact Or.inl (le_trans hk (hc.1 ▸ hle))
        · exact Or.inr hk
      · exact Or.inr (hc.1 ▸ h3 idx hni)
    · rw [if_neg hc]
      exact h2 k
  · intro k
    rw [getD_set_octet]
    by_cases hc : idx = k ∧ idx < cur.length
    · rw [if_pos hc]
      intro hev
      exact hc.1 ▸ h3 idx (hv2 hev)
    · rw [if_neg hc]
      exact h3 k
  · intro c hc
    rcases List.mem_or_eq_of_mem_set hc with hm | he
    · exact h4 c hm
    · exact he ▸ hv3

theorem growInv_init (orig : List Nat) : GrowInv orig orig :=
  fun _ => Or.inl le_rfl

theorem growInv_set {orig cur : List Nat} (h : GrowInv orig cur) (idx v : Nat)
    (hv : cur.getD idx 0 ≤ v) : GrowInv orig (cur.set idx v) := by
  intro k
  rw [getD_set_octet]
  by_cases hc : idx = k ∧ idx < cur.length
  · rw [if_pos hc]
    rcases h k with hk | hk
    · exact Or.inl (le_trans hk (hc.1 ▸ hv))
    · exact Or.inr hk
  · rw [if_neg hc]
    exact h k

/-- The rolling cell body of `updateCosts` preserves `MonoInv` when
`use_maximum` is set: each of its writes is the incoming `LETHAL` over
a non-`NO_INFORMATION`-or-exempt cell, the incoming value over a
`NO_INFORMATION` master cell, or a per-cell `max`. -/
theorem rollingCellUpdate_preserves (st : StaticLayerState)
    (hmax : st.cfg.use_maximum = true)
    (hgrid : ∀ c ∈ st.grid.cells, c ≤ 255)
    (orig : List Nat) (i j : Nat) (m2 : Costmap)
    (h : MonoInv orig m2.cells) :
    MonoInv orig (rollingCellUpdate st m2 i j).cells := by
  unfold rollingCellUpdate
  rcases hwm : st.grid.worldToMap (m2.mapToWorld i j).1 (m2.mapToWorld i j).2
    with _ | ⟨mx, my⟩
  · simp only [hwm]
    exact h
  · simp only [hwm, hmax, not_true_eq_false, if_false, Bool.true_eq_false]
    have hcost255 : st.grid.getCost mx my ≤ 255 := getD_le_of_all_le hgrid _
    have hold255 : m2.cells.getD (j * m2.size_x + i) 0 ≤ 255 :=
      getD_le_of_all_le h.2.2.2 _
    split_ifs with hni htrack hleth hO
    · exact h
    · refine monoInv_set h (j * m2.size_x + i) _ ?_ ?_
        (hleth ▸ (by norm_num [LETHAL_OBSTACLE]))
      · by_cases ho : m2.cells.getD (j * m2.size_x + i) 0 = NO_INFORMATION
        · exact Or.inr ho
        · left
          rw [hleth]
          unfold NO_INFORMATION at ho
          unfold LETHAL_OBSTACLE
          omega
      · intro hv
        exact absurd hv hni
    · refine monoInv_set h (j * m2.size_x + i) _ (Or.inl (le_max_right _ _)) ?_
        (max_le hcost255 hold255)
      intro hv
      rcases max_eq_iff.mp hv with ⟨h1, _⟩ | ⟨h1, _⟩
      · exact absurd h1 hni
      · exact h1
    · refine monoInv_set h (j * m2.size_x + i) _ (Or.inr hO) ?_ hcost255
      intro hv
      exact absurd hv hni
    · refine monoInv_set h (j * m2.size_x + i) _ (Or.inl (le_max_right _ _)) ?_
        (max_le hcost255 hold255)
      intro hv
      rcases max_eq_iff.mp hv with ⟨h1, _⟩ | ⟨h1, _⟩
      · exact absurd h1 hni
      · exact h1

/-- The spec-modelled per-cell max merge only grows master cells. -/
theorem updateWithMax_grow (grid master : Costmap) (a b c d : Nat) :
    GrowInv master.cells (updateWithMax grid master a b c d).cells := by
  unfold updateWithMax
  refine foldl_preserves (fun (m : Costmap) => GrowInv master.cells m.cells)
    _ ?_ _ _ (growInv_init _)
  intro m di hm
  refine foldl_preserves (fun (m : Costmap) => GrowInv master.cells m.cells)
    _ ?_ _ _ hm
  intro m2 dj hm2
  exact growInv_set hm2 _ _ (le_max_right _ _)

/-- The rolling fold of `updateCosts` keeps `MonoInv` relative to the
initial master when `use_maximum` holds. -/
theorem updateCosts_rolling_mono (st : StaticLayerState)
    (hmax : st.cfg.use_maximum = true)
    (hgrid : ∀ c ∈ st.grid.cells, c ≤ 255)
    (master : Costmap) (hmaster : ∀ c ∈ master.cells, c ≤ 255)
    (min_i min_j max_i max_j : Nat) :
    MonoInv master.cells
      (((List.range (max_i - min_i)).foldl (fun m di =>
        (List.range (max_j - min_j)).foldl (fun m2 dj =>
          rollingCellUpdate st m2 (min_i + di) (min_j + dj)) m) master)).cells := by
  refine foldl_preserves (fun (m : Costmap) => MonoInv master.cells m.cells)
    _ ?_ _ _ (monoInv_init hmaster)
  intro m di hm
  refine foldl_preserves (fun (m : Costmap) => MonoInv master.cells m.cells)
    _ ?_ _ _ hm
  intro m2 dj hm2
  exact rollingCellUpdate_preserves st hmax hgrid _ _ _ m2 hm2

/-- Length is preserved by a fold of sets. -/
theorem foldl_set_length (f v : Nat → Nat) :
    ∀ (idxs : List Nat) (l : List Nat),
    (idxs.foldl (fun c j => c.set (f j) (v j)) l).length = l.length
  | [], _ => rfl
  | j :: idxs, l => by
    rw [List.foldl_cons, foldl_set_length f v idxs, List.length_set]

/-- One row of `incomingMap`'s rewrite loop, as a record update. -/
theorem foldl_setCost_row (F : Nat → Nat) (i : Nat) :
    ∀ (n : Nat) (g : Costmap),
    ((List.range n).foldl (fun g2 j => g2.setCost j i (F j)) g)
      = { g with cells := ((List.range n).foldl
            (fun c j => c.set (i * g.size_x + j) (F j)) g.cells) } := by
  intro n
  induction n with
  | zero => intro g; rfl
  | succ n ih =>
    intro g
    rw [List.range_succ, List.foldl_append, List.foldl_append, ih g]
    rfl

/-- The full rewrite loop of `incomingMap`, as a record update. -/
theorem foldl_setCost_all (F2 : Nat → Nat → Nat) (n : Nat) :
    ∀ (h : Nat) (g : Costmap),
    ((List.range h).foldl (fun g i => (List.range n).foldl
        (fun g2 j => g2.setCost j i (F2 i j)) g) g)
      = { g with cells := ((List.range h).foldl
            (fun c i => (List.range n).foldl
              (fun c2 j => c2.set (i * g.size_x + j) (F2 i j)) c) g.cells) } := by
  intro h
  induction h with
  | zero => intro g; rfl
  | succ h ih =>
    intro g
    rw [List.range_succ, List.foldl_append, List.foldl_append,
      List.foldl_cons, List.foldl_nil, List.foldl_cons, List.foldl_nil, ih g,
      foldl_setCost_row (F2 h) h n]

/-- `getD` through one row of sets at `base + j`, value `F j`. -/
theorem foldl_set_row_getD (F : Nat → Nat) (base : Nat) :
    ∀ (n : Nat) (l : List Nat) (k : Nat),
    ((List.range n).foldl (fun c j => c.set (base + j) (F j)) l).getD k 0
      = if base ≤ k ∧ k < base + n ∧ k < l.length then F (k - base)
        else l.getD k 0 := by
  intro n
  induction n with
  | zero =>
    intro l k
    simp only [List.range_zero, List.foldl_nil]
    rw [if_neg (by omega)]
  | succ n ih =>
    intro l k
    rw [List.range_succ, List.foldl_append, List.foldl_cons, List.foldl_nil,
      getD_set_octet, foldl_set_length, ih]
    by_cases h1 : base + n = k ∧ base + n < l.length
    · rw [if_pos h1, if_pos (by omega)]
      have h2 : k - base = n := by omega
      rw [h2]
    · rw [if_neg h1]
      by_cases h2 : base ≤ k ∧ k < base + n ∧ k < l.length
      · rw [if_pos h2, if_pos (by omega)]
      · rw [if_neg h2, if_neg (by omega)]

/-- Length is preserved by the nested rewrite loop. -/
theorem foldl_set_all_length (F2 : Nat → Nat → Nat) (s : Nat) :
    ∀ (h : Nat) (l : List Nat),
    ((List.range h).foldl (fun c i => (List.range s).foldl
        (fun c2 j => c2.set (i * s + j) (F2 i j)) c) l).length = l.length := by
  intro h
  induction h with
  | zero => intro l; rfl
  | succ h ih =>
    intro l
    rw [List.range_succ, List.foldl_append, List.foldl_cons, List.foldl_nil,
      foldl_set_length, ih]

/-- `getD` through the whole nested rewrite loop: index `k` decomposes
into row `k / s` and column `k % s`. -/
theorem foldl_set_all_getD (F2 : Nat → Nat → Nat) (s : Nat) :
    ∀ (h : Nat) (l : List Nat) (k : Nat),
    ((List.range h).foldl (fun c i => (List.range s).foldl
        (fun c2 j => c2.set (i * s + j) (F2 i j)) c) l).getD k 0
      = if k < h * s ∧ k < l.length then F2 (k / s) (k % s)
        else l.getD k 0 := by
  intro h
  induction h with
  | zero =>
    intro l k
    simp only [List.range_zero, List.foldl_nil]
    rw [if_neg (by omega)]
  | succ h ih =>
    intro l k
    rw [List.range_succ, List.foldl_append, List.foldl_cons, List.foldl_nil,
      foldl_set_row_getD]
    rw [foldl_set_all_length, ih, Nat.succ_mul]
    by_cases h1 : h * s ≤ k ∧ k < h * s + s ∧ k < l.length
    · rw [if_pos h1, if_pos ⟨by omega, h1.2.2⟩]
      have hs : 0 < s := by omega
      obtain ⟨r, hr, rfl⟩ : ∃ r, r < s ∧ k = h * s + r :=
        ⟨k - h * s, by omega, by omega⟩
      have hdiv : (h * s + r) / s = h := by
        rw [Nat.add_comm, Nat.mul_comm, Nat.add_mul_div_left _ _ hs,
          Nat.div_eq_of_lt hr, Nat.zero_add]
      have hmod : (h * s + r) % s = r := by
        rw [Nat.add_comm, Nat.mul_comm, Nat.add_mul_mod_self_left,
          Nat.mod_eq_of_lt hr]
      rw [hdiv, hmod, Nat.add_sub_cancel_left]
    · rw [if_neg h1]
      by_cases h2 : k < h * s ∧ k < l.length
      · rw [if_pos h2, if_pos ⟨by omega, h2.2⟩]
      · rw [if_neg h2, if_neg (by omega)]

/-- After the resize phase the private grid has the snapshot's shape,
a matching buffer length, and the configuration is untouched. -/
theorem incomingMapResize_grid (lc : LayeredCostmap) (st : StaticLayerState)
    (snap : OccupancyGrid) (hwf : st.grid.WF) :
    ((incomingMapResize lc st snap).2.grid.size_x = snap.width)
    ∧ ((incomingMapResize lc st snap).2.grid.size_y = snap.height)
    ∧ ((incomingMapResize lc st snap).2.grid.cells.length
        = snap.width * snap.height)
    ∧ ((incomingMapResize lc st snap).2.cfg = st.cfg) := by
  unfold incomingMapResize
  dsimp only
  split_ifs with h1 h2
  · refine ⟨rfl, rfl, ?_, rfl⟩
    simp [Costmap.resized]
  · refine ⟨rfl, rfl, ?_, rfl⟩
    simp [Costmap.resized]
  · push_neg at h2
    obtain ⟨hx, hy, _, _, _⟩ := h2
    refine ⟨hx, hy, ?_, rfl⟩
    unfold Costmap.WF at hwf
    rw [hwf, hx, hy]

/-- The grid produced by `incomingMap`: shape, contents, dirty
rectangle and flags, for any snapshot (the unchecked source read is
modelled by `getD _ 0`). -/
theorem incomingMap_spec (lc : LayeredCostmap) (st : StaticLayerState)
    (snap : OccupancyGrid) (hwf : st.grid.WF) :
    ((incomingMap lc st snap).2.grid.size_x = snap.width)
    ∧ ((incomingMap lc st snap).2.grid.size_y = snap.height)
    ∧ (incomingMap lc st snap).2.grid.WF
    ∧ (∀ col row, col < snap.width → row < snap.height →
        (incomingMap lc st snap).2.grid.getCost col row
          = interpretValue st.cfg (snap.data.getD (row * snap.width + col) 0))
    ∧ (incomingMap lc st snap).2.x = 0
    ∧ (incomingMap lc st snap).2.y = 0
    ∧ (incomingMap lc st snap).2.width = snap.width
    ∧ (incomingMap lc st snap).2.height = snap.height
    ∧ (incomingMap lc st snap).2.map_received = true
    ∧ (incomingMap lc st snap).2.has_updated_data = true
    ∧ (incomingMap lc st snap).2.cfg = st.cfg := by
  obtain ⟨hgx, hgy, hglen, hgcfg⟩ := incomingMapResize_grid lc st snap hwf
  unfold incomingMap
  dsimp only
  rw [foldl_setCost_all
    (fun i j => interpretValue (incomingMapResize lc st snap).2.cfg
      (snap.data.getD (i * snap.width + j) 0)) snap.width snap.height]
  rw [hgx]
  refine ⟨rfl, hgy, ?_, ?_, rfl, rfl, rfl, ?_, rfl, rfl, hgcfg⟩
  · show (_ : List Nat).length = snap.width * _
    rw [foldl_set_all_length, hglen, hgy]
  · intro col row hcol hrow
    show (_ : List Nat).getD (row * snap.width + col) 0 = _
    rw [foldl_set_all_getD]
    have hk1 : row * snap.width + col < snap.height * snap.width := by
      calc row * snap.width + col < row * snap.width + snap.width := by omega
        _ = (row + 1) * snap.width := by rw [Nat.succ_mul]
        _ ≤ snap.height * snap.width := Nat.mul_le_mul_right _ hrow
    have hk2 : row * snap.width + col
        < (incomingMapResize lc st snap).2.grid.cells.length := by
      rw [hglen]
      exact hk1.trans_eq (Nat.mul_comm _ _)
    rw [if_pos ⟨hk1, hk2⟩, hgcfg]
    have hdm : (row * snap.width + col) / snap.width * snap.width
        + (row * snap.width + col) % snap.width = row * snap.width + col := by
      rw [Nat.mul_comm]
      exact Nat.div_add_mod _ _
    rw [hdm]
  · show (_ : Costmap).size_y = snap.height
    exact hgy

/-- Projection of the world center of master cell `(0, 0)` in the C1
counterexample geometry. -/
theorem c1Master_mapToWorld : Costmap.mapToWorld c1Master 0 0 = (1/2, 1/2) := by
  unfold c1Master Costmap.mapToWorld
  norm_num

/-- Reverse projection of that point onto the C1 private grid. -/
theorem c1St_worldToMap :
    Costmap.worldToMap c1St.grid (1/2) (1/2) = some (0, 0) := by
  show Costmap.worldToMap ⟨1, 1, 1, 0, 0, [254]⟩ (1/2) (1/2) = some (0, 0)
  unfold Costmap.worldToMap
  norm_num [Int.floor_eq_zero_iff, Set.mem_Ico]

/-- The C1 counterexample cell update writes `LETHAL_OBSTACLE` over
the master's `NO_INFORMATION`. -/
theorem c1_cell_update :
    rollingCellUpdate c1St c1Master 0 0 = Costmap.setCost c1Master 0 0 254 := by
  unfold rollingCellUpdate
  simp only [c1Master_mapToWorld, c1St_worldToMap]
  norm_num [c1St, Costmap.getCost, NO_INFORMATION, LETHAL_OBSTACLE]


/-! ### Claims -/

/-- C1 (corrected), counterexample: with `track_unknown_space = true`,
`use_maximum = true` and `map_received` set, the rolling branch of
`update_costs` writes the incoming `LETHAL_OBSTACLE` (254) over a
master cell holding `NO_INFORMATION` (255), decreasing it — a case the
claim's exception ("`NO_INFO` while `track_unknown_space` is false")
does not cover. -/
theorem updateCosts_max_decreases_tracked_noInfo :
    c1St.cfg.use_maximum = true
    ∧ c1St.cfg.track_unknown_space = true
    ∧ c1St.map_received = true
    ∧ c1Master.cells.getD 0 0 = NO_INFORMATION
    ∧ (updateCosts ⟨true, false, c1Master⟩ c1St c1Master 0 0 1 1).cells.getD 0 0
        = 254
    ∧ ¬(c1Master.cells.getD 0 0
        ≤ (updateCosts ⟨true, false, c1Master⟩ c1St c1Master 0 0 1 1).cells.getD 0 0) := by
  have hstep : updateCosts ⟨true, false, c1Master⟩ c1St c1Master 0 0 1 1
      = rollingCellUpdate c1St c1Master 0 0 := by
    unfold updateCosts
    norm_num [c1St, List.range_succ]
  refine ⟨rfl, rfl, rfl, by decide, ?_, ?_⟩
  · rw [hstep, c1_cell_update]
    decide
  · rw [hstep, c1_cell_update]
    decide

/-- C1 (amended): for every master grid, rectangle and static-layer
state with `map_received` set, `update_costs` with `use_maximum = true`
leaves every master cell's value greater than or equal to its value
before the call, except cells whose previous master value was
`NO_INFO` (with `track_unknown_space` false these may be overwritten
by the incoming value; with it true they may be overwritten by
`LETHAL`).  Cell buffers are assumed to hold octets. -/
theorem updateCosts_max_monotone_except_noInfo (lc : LayeredCostmap)
    (st : StaticLayerState) (master : Costmap) (min_i min_j max_i max_j : Nat)
    (hmax : st.cfg.use_maximum = true)
    (hrecv : st.map_received = true)
    (hgrid : ∀ c ∈ st.grid.cells, c ≤ 255)
    (hmaster : ∀ c ∈ master.cells, c ≤ 255) :
    ∀ k, master.cells.getD k 0
        ≤ (updateCosts lc st master min_i min_j max_i max_j).cells.getD k 0
      ∨ master.cells.getD k 0 = NO_INFORMATION := by
  unfold updateCosts
  by_cases hen : st.cfg.enabled = true
  · rw [if_neg (by simp [hen])]
    rw [if_neg (by simp [hrecv])]
    by_cases hroll : lc.rolling = true
    · rw [if_neg (by simp [hroll])]
      exact (updateCosts_rolling_mono st hmax hgrid master hmaster
        min_i min_j max_i max_j).2.1
    · rw [if_pos (by simp [hroll])]
      rw [if_neg (by simp [hmax])]
      exact updateWithMax_grow st.grid master min_i min_j max_i max_j
  · rw [if_pos (by simp [hen])]
    exact growInv_init _

/-- C1 witness: the amended monotonicity theorem applied at a concrete
non-rolling state, specialized to cell 0. -/
theorem updateCosts_max_monotone_except_noInfo_witness :
    c1wSt.cfg.use_maximum = true
    ∧ c1wSt.map_received = true
    ∧ (c1wMaster.cells.getD 0 0
        ≤ (updateCosts ⟨false, true, c1wMaster⟩ c1wSt c1wMaster 0 0 1 1).cells.getD 0 0
      ∨ c1wMaster.cells.getD 0 0 = NO_INFORMATION) :=
  ⟨rfl, rfl,
    updateCosts_max_monotone_except_noInfo ⟨false, true, c1wMaster⟩ c1wSt
      c1wMaster 0 0 1 1 rfl rfl (by decide) (by decide) 0⟩

/-- C2 (code bug evaluated at the failing input): a 1×1 patch with
origin cell `(1, 0)` and cell value 5 is written to `(0, 0)` — the
source ignores the patch origin (`index_base` is computed but unused),
so the cell at `(p.x + dx, p.y + dy) = (1, 0)` keeps its old value 0
while `(0, 0)` receives 5; the dirty rectangle does become the patch
rectangle. -/
theorem incomingUpdate_writes_at_origin_zero :
    (incomingUpdate c2St c2Update).grid.cells = [5, 0]
    ∧ (incomingUpdate c2St c2Update).grid.getCost 1 0 = 0
    ∧ (incomingUpdate c2St c2Update).grid.getCost 0 0 = 5
    ∧ (incomingUpdate c2St c2Update).x = 1
    ∧ (incomingUpdate c2St c2Update).y = 0
    ∧ (incomingUpdate c2St c2Update).width = 1
    ∧ (incomingUpdate c2St c2Update).height = 1
    ∧ c2Update.data.getD 0 0 = 5 := by
  decide

/-- C3 (corrected), counterexample: with `trinary_costmap = false` and
`lethal_threshold = 3`, the source's truncating conversion yields
`interpret(1) = ⌊254/3⌋ = 84`, while the claim's formula
round(`v / t * LETHAL`) yields 85. -/
theorem interpretValue_truncates_not_rounds :
    interpretValue ⟨true, false, false, true, 3, 255⟩ 1 = 84
    ∧ interpretSpecRound ⟨true, false, false, true, 3, 255⟩ 1 = 85 := by
  refine ⟨by decide, ?_⟩
  unfold interpretSpecRound
  rw [if_neg (by decide), if_neg (by decide), if_neg (by decide),
    if_neg (by decide)]
  have h1 : ((1 : Nat) : ℚ) / ((3 : Nat) : ℚ) * ((LETHAL_OBSTACLE : Nat) : ℚ)
      = 254 / 3 := by
    norm_num [LETHAL_OBSTACLE]
  have h2 : round ((254 : ℚ) / 3) = 85 := by
    rw [round_eq]
    have h3 : (254 : ℚ) / 3 + 1 / 2 = 511 / 6 := by norm_num
    rw [h3, Int.floor_eq_iff]
    constructor
    · norm_num
    · norm_num
  show min (LETHAL_OBSTACLE - 1)
      (round (((1 : Nat) : ℚ) / ((3 : Nat) : ℚ) * ((LETHAL_OBSTACLE : Nat) : ℚ))).toNat = 85
  rw [h1, h2]
  decide

/-- C3 (amended): `interpret` follows the claim's five-step rule with
the rounding replaced by truncation toward zero (the `unsigned char`
conversion of the source), the result of the scaling branch landing in
`[0, LETHAL - 1]` as the clamp demands; in particular with
`trinary_costmap = false` and `lethal_threshold = 50`,
`interpret(25) = 127` whenever `unknown_cost_value ≠ 25`. -/
theorem interpretValue_matches_truncating_spec (cfg : StaticLayerConfig)
    (v : Nat) (ht : 1 ≤ cfg.lethal_threshold) :
    interpretValue cfg v = interpretSpecTruncate cfg v
    ∧ (∀ track use en u, u ≠ 25 →
        interpretValue ⟨track, use, false, en, 50, u⟩ 25 = 127) := by
  constructor
  · unfold interpretValue interpretSpecTruncate
    split_ifs with h1 h2 h3 h4
    · rfl
    · rfl
    · rfl
    · rfl
    · have hvt : v < cfg.lethal_threshold := by omega
      have hq : ((v : Nat) : ℚ) / ((cfg.lethal_threshold : Nat) : ℚ)
          * ((LETHAL_OBSTACLE : Nat) : ℚ)
          = (((v * LETHAL_OBSTACLE : Nat) : ℤ) : ℚ)
            / ((cfg.lethal_threshold : Nat) : ℚ) := by
        push_cast
        ring
      have hfl : ⌊((v : Nat) : ℚ) / ((cfg.lethal_threshold : Nat) : ℚ)
          * ((LETHAL_OBSTACLE : Nat) : ℚ)⌋
          = ((v * LETHAL_OBSTACLE / cfg.lethal_threshold : Nat) : ℤ) := by
        rw [hq, Rat.floor_intCast_div_natCast]
        exact (Int.natCast_div _ _).symm
      rw [hfl, Int.toNat_natCast]
      have hle : v * LETHAL_OBSTACLE / cfg.lethal_threshold
          ≤ LETHAL_OBSTACLE - 1 := by
        have hlt : v * LETHAL_OBSTACLE / cfg.lethal_threshold
            < LETHAL_OBSTACLE := by
          rw [Nat.div_lt_iff_lt_mul (by omega)]
          have hstep : v * LETHAL_OBSTACLE
              < cfg.lethal_threshold * LETHAL_OBSTACLE :=
            (Nat.mul_lt_mul_right (by norm_num [LETHAL_OBSTACLE])).mpr hvt
          calc v * LETHAL_OBSTACLE
              < cfg.lethal_threshold * LETHAL_OBSTACLE := hstep
            _ = LETHAL_OBSTACLE * cfg.lethal_threshold := Nat.mul_comm _ _
        omega
      rw [Nat.min_eq_right hle]
  · intro track use en u hu
    have h1 : ¬(25 = u) := fun h => hu h.symm
    unfold interpretValue
    rw [if_neg (by simp [h1]), if_neg (by simp [h1]), if_neg (by norm_num),
      if_neg (by simp)]
    norm_num [LETHAL_OBSTACLE]

/-- C3 witness: the amended interpretation theorem applied at
`lethal_threshold = 50`, `trinary_costmap = false`, `v = 25`. -/
theorem interpretValue_matches_truncating_spec_witness :
    1 ≤ (50 : Nat)
    ∧ interpretValue ⟨true, false, false, true, 50, 255⟩ 25
        = interpretSpecTruncate ⟨true, false, false, true, 50, 255⟩ 25
    ∧ interpretValue ⟨true, false, false, true, 50, 255⟩ 25 = 127 :=
  ⟨by decide,
   (interpretValue_matches_truncating_spec ⟨true, false, false, true, 50, 255⟩
     25 (by decide)).1,
   (interpretValue_matches_truncating_spec ⟨true, false, false, true, 50, 255⟩
     25 (by decide)).2 true false true 255 (by decide)⟩

/-- C4 (confirmed): `determine_state` returns `Arrive` exactly when
`goal_distance < switch_goal_distance`; otherwise it returns `Align`
exactly when `|yaw_error| > switch_yaw_error` or the previous state
was `Align` and `|yaw_error| > switch_yaw_error / 2`, and `Default`
otherwise — so from `Default` with `|yaw_error|` just below the
threshold the state stays `Default`, crossing above it enters `Align`,
dropping to `0.6 · switch_yaw_error` stays `Align`, and dropping to
`0.4 · switch_yaw_error` returns to `Default`. -/
theorem determineState_spec (sw : DWASwitches) (prev : LocalPlannerState)
    (yaw_error plan_distance goal_distance eps : ℚ)
    (hs : 0 < sw.switch_yaw_error)
    (hgd : sw.switch_goal_distance ≤ goal_distance)
    (heps : 0 < eps) (hepss : eps ≤ sw.switch_yaw_error) :
    (∀ ye pd gd, (determineState sw prev ye pd gd = .Arrive ↔
        gd < sw.switch_goal_distance))
    ∧ (determineState sw prev yaw_error plan_distance goal_distance = .Align ↔
        sw.switch_yaw_error < |yaw_error| ∨
          (prev = .Align ∧ sw.switch_yaw_error / 2 < |yaw_error|))
    ∧ (determineState sw prev yaw_error plan_distance goal_distance = .Default ↔
        ¬(sw.switch_yaw_error < |yaw_error| ∨
          (prev = .Align ∧ sw.switch_yaw_error / 2 < |yaw_error|)))
    ∧ determineState sw .Default (sw.switch_yaw_error - eps)
        plan_distance goal_distance = .Default
    ∧ determineState sw .Default (sw.switch_yaw_error + eps)
        plan_distance goal_distance = .Align
    ∧ determineState sw .Align (3/5 * sw.switch_yaw_error)
        plan_distance goal_distance = .Align
    ∧ determineState sw .Align (2/5 * sw.switch_yaw_error)
        plan_distance goal_distance = .Default := by
  have hng : ¬(goal_distance < sw.switch_goal_distance) := not_lt.mpr hgd
  refine ⟨?_, ?_, ?_, ?_, ?_, ?_, ?_⟩
  · intro ye pd gd
    by_cases h : gd < sw.switch_goal_distance
    · simp [determineState, h]
    · simp [determineState, h]
      split <;> simp
  · simp only [determineState, if_neg hng]
    split <;> simp_all
  · simp only [determineState, if_neg hng]
    split <;> simp_all
  · have h1 : |sw.switch_yaw_error - eps| = sw.switch_yaw_error - eps :=
      abs_of_nonneg (by linarith)
    simp only [determineState, if_neg hng, h1]
    rw [if_neg]
    push_neg
    constructor
    · linarith
    · intro h
      exact absurd h (by simp)
  · have h1 : |sw.switch_yaw_error + eps| = sw.switch_yaw_error + eps :=
      abs_of_nonneg (by linarith)
    simp only [determineState, if_neg hng, h1]
    rw [if_pos]
    left
    linarith
  · have h1 : |3/5 * sw.switch_yaw_error| = 3/5 * sw.switch_yaw_error :=
      abs_of_nonneg (by linarith)
    simp only [determineState, if_neg hng, h1]
    rw [if_pos]
    exact Or.inr ⟨by simp, by linarith⟩
  · have h1 : |2/5 * sw.switch_yaw_error| = 2/5 * sw.switch_yaw_error :=
      abs_of_nonneg (by linarith)
    simp only [determineState, if_neg hng, h1]
    rw [if_neg]
    push_neg
    constructor
    · linarith
    · intro _
      linarith

/-- C4 witness: the state-machine theorem applied at
`switch_yaw_error = 1`, `switch_goal_distance = 3`, `eps = 1`,
specialized to the crossing-into-`Align` step. -/
theorem determineState_spec_witness :
    (0 : ℚ) < 1 ∧ (3 : ℚ) ≤ 3 ∧ (1 : ℚ) ≤ 1
    ∧ determineState ⟨1, 0, 3⟩ LocalPlannerState.Default (1 + 1) 0 3
        = LocalPlannerState.Align :=
  ⟨by decide, by decide, by decide,
    (determineState_spec ⟨1, 0, 3⟩ LocalPlannerState.Default 0 0 3 1
      (by decide) (by decide) (by decide) (by decide)).2.2.2.2.1⟩

/-- C5 (corrected), counterexample: a snapshot declaring shape 1×1
with a 2-cell buffer (`width · height ≠ length`) is not rejected:
`on_snapshot` processes it, rewrites the grid and sets `map_received`,
so the state does not remain unchanged. -/
theorem incomingMap_processes_malformed_snapshot :
    c5Snap.width * c5Snap.height ≠ c5Snap.data.length
    ∧ (incomingMap c5Lc c5St c5Snap).2.map_received = true
    ∧ c5St.map_received = false
    ∧ (incomingMap c5Lc c5St c5Snap).2.grid.cells = [254]
    ∧ (incomingMap c5Lc c5St c5Snap).2.grid.size_x = 1 := by
  decide

/-- C5 (amended): `on_snapshot` performs no buffer-length validation:
any snapshot whose buffer holds at least `width · height` cells is
processed exactly like a well-formed one — the private grid is
rewritten from the first `width · height` buffer entries, the dirty
rectangle becomes the whole grid, and `map_received` is set — and it
is never rejected.  (A buffer shorter than `width · height` makes the
source read out of bounds, which is undefined.) -/
theorem incomingMap_skips_length_validation (lc : LayeredCostmap)
    (st : StaticLayerState) (snap : OccupancyGrid) (hwf : st.grid.WF)
    (_hlen : snap.width * snap.height ≤ snap.data.length) :
    (incomingMap lc st snap).2.map_received = true
    ∧ (incomingMap lc st snap).2.has_updated_data = true
    ∧ (∀ col row, col < snap.width → row < snap.height →
        (incomingMap lc st snap).2.grid.getCost col row
          = interpretValue st.cfg (snap.data.getD (row * snap.width + col) 0))
    ∧ (incomingMap lc st snap).2.x = 0
    ∧ (incomingMap lc st snap).2.y = 0
    ∧ (incomingMap lc st snap).2.width = snap.width
    ∧ (incomingMap lc st snap).2.height = snap.height := by
  obtain ⟨h1, h2, h3, h4, h5, h6, h7, h8, h9, h10, h11⟩ :=
    incomingMap_spec lc st snap hwf
  exact ⟨h9, h10, h4, h5, h6, h7, h8⟩

/-- C5 witness: the no-validation theorem applied to the malformed
fixture snapshot, specialized to cell `(0, 0)`. -/
theorem incomingMap_skips_length_validation_witness :
    c5St.grid.WF
    ∧ c5Snap.width * c5Snap.height ≤ c5Snap.data.length
    ∧ (incomingMap c5Lc c5St c5Snap).2.map_received = true
    ∧ (incomingMap c5Lc c5St c5Snap).2.grid.getCost 0 0
        = interpretValue c5St.cfg (c5Snap.data.getD 0 0) :=
  ⟨by rfl, by decide,
   (incomingMap_skips_length_validation c5Lc c5St c5Snap (by rfl) (by decide)).1,
   (incomingMap_skips_length_validation c5Lc c5St c5Snap (by rfl)
     (by decide)).2.2.1 0 0 (by decide) (by decide)⟩

/-- C6 (code bug evaluated at the failing input): with the planner
initialized, the pose fetch failing, and a non-empty plan available,
`computeVelocityCommands` still publishes the best trajectory's
velocity and reports success (under the `true` valuation of the
unspecified fall-through return value), because
`getRobotStateAndLocalPlan` discards `getRobotState`'s `false`. -/
theorem computeVelocityCommands_ignores_pose_failure :
    getRobotState true false false = false
    ∧ computeVelocityCommands true false true false false true ⟨1, 0, 0, 0⟩
        = (true, some (1, 0, 0)) := by
  decide

/-- C7 (confirmed): once the state-and-plan fetch step has succeeded,
the published command equals the best trajectory's `(vx, vy, vθ)` and
the cycle reports success when its cost is non-negative, and is
`(0, 0, 0)` with the cycle reporting failure when the cost is
negative. -/
theorem computeVelocityCommands_publishes_best (initialized poseOk planOk
    planEmpty fts ftsp : Bool) (traj : Trajectory)
    (h : getRobotStateAndLocalPlan initialized poseOk planOk planEmpty fts ftsp
      = true) :
    (0 ≤ traj.cost →
      computeVelocityCommands initialized poseOk planOk planEmpty fts ftsp traj
        = (true, some (traj.xv, traj.yv, traj.thetav)))
    ∧ (traj.cost < 0 →
      computeVelocityCommands initialized poseOk planOk planEmpty fts ftsp traj
        = (false, some (0, 0, 0))) := by
  constructor
  · intro hc
    simp [computeVelocityCommands, h, setCmdVel, hc]
  · intro hc
    simp [computeVelocityCommands, h, setCmdVel, not_le.mpr hc,
      not_le.mpr hc]

/-- C7 witness: the publication theorem applied to a successful fetch
and a legal trajectory `(1, 2, 3)` of cost 5. -/
theorem computeVelocityCommands_publishes_best_witness :
    getRobotStateAndLocalPlan true true true false true true = true
    ∧ (0 : ℚ) ≤ 5
    ∧ computeVelocityCommands true true true false true true ⟨1, 2, 3, 5⟩
        = (true, some (1, 2, 3)) :=
  ⟨by decide, by decide,
   (computeVelocityCommands_publishes_best true true true false true true
     ⟨1, 2, 3, 5⟩ (by decide)).1 (by decide)⟩

/-- C8 (confirmed): after `on_snapshot` of a well-formed snapshot,
every private-grid cell `(col, row)` equals
`interpret(s.cells[row · s.width + col])`, the dirty rectangle covers
the entire grid, and `map_received` is set. -/
theorem incomingMap_rewrites_full_grid (lc : LayeredCostmap)
    (st : StaticLayerState) (snap : OccupancyGrid) (hwf : st.grid.WF)
    (_hsnap : snap.data.length = snap.width * snap.height) :
    (∀ col row, col < snap.width → row < snap.height →
      (incomingMap lc st snap).2.grid.getCost col row
        = interpretValue st.cfg (snap.data.getD (row * snap.width + col) 0))
    ∧ (incomingMap lc st snap).2.grid.size_x = snap.width
    ∧ (incomingMap lc st snap).2.grid.size_y = snap.height
    ∧ (incomingMap lc st snap).2.x = 0
    ∧ (incomingMap lc st snap).2.y = 0
    ∧ (incomingMap lc st snap).2.width = snap.width
    ∧ (incomingMap lc st snap).2.height = snap.height
    ∧ (incomingMap lc st snap).2.map_received = true := by
  obtain ⟨h1, h2, h3, h4, h5, h6, h7, h8, h9, h10, h11⟩ :=
    incomingMap_spec lc st snap hwf
  exact ⟨h4, h1, h2, h5, h6, h7, h8, h9⟩

/-- C8 witness: the snapshot-rewrite theorem applied to a well-formed
2×1 snapshot, specialized to cell `(1, 0)`. -/
theorem incomingMap_rewrites_full_grid_witness :
    c8St.grid.WF
    ∧ c8Snap.data.length = c8Snap.width * c8Snap.height
    ∧ (incomingMap c8Lc c8St c8Snap).2.grid.getCost 1 0
        = interpretValue c8St.cfg (c8Snap.data.getD 1 0)
    ∧ (incomingMap c8Lc c8St c8Snap).2.map_received = true :=
  ⟨by rfl, by decide,
   (incomingMap_rewrites_full_grid c8Lc c8St c8Snap (by rfl) (by decide)).1
     1 0 (by decide) (by decide),
   (incomingMap_rewrites_full_grid c8Lc c8St c8Snap (by rfl)
     (by decide)).2.2.2.2.2.2.2⟩

/-- C9 (confirmed): given a robot state and a goal, `isGoalReached`
returns true exactly when the (squared) Euclidean distance to the goal
is within `xy_goal_tolerance`, the absolute angular difference between
robot yaw and goal yaw is within `yaw_goal_tolerance`, and the robot
is stopped with respect to `rot_stopped_vel` and `trans_stopped_vel`. -/
theorem isGoalReached_iff (robot_pose robot_vel goal : Pose2D)
    (l : LocalPlannerLimits) :
    isGoalReached true true robot_pose robot_vel goal l = true ↔
      (getGoalPositionDistanceSq robot_pose goal.x goal.y
          ≤ l.xy_goal_tolerance ^ 2
       ∧ |getGoalOrientationAngleDifference robot_pose goal.th|
          ≤ l.yaw_goal_tolerance
       ∧ stopped robot_vel l.rot_stopped_vel l.trans_stopped_vel = true) := by
  simp [isGoalReached]

/-- C10 (confirmed): with the enabled flag false, `update_bounds`
returns the caller's bounds unchanged and leaves the whole layer state
(including the dirty flag) unchanged, and `update_costs` leaves the
master grid unchanged. -/
theorem disabled_static_layer_inert (lc : LayeredCostmap)
    (st : StaticLayerState) (master : Costmap)
    (rx ry ryaw a b c d : ℚ) (mi mj Mi Mj : Nat)
    (h : st.cfg.enabled = false) :
    updateBounds st rx ry ryaw a b c d = ((a, b, c, d), st)
    ∧ updateCosts lc st master mi mj Mi Mj = master := by
  constructor
  · simp [updateBounds, h]
  · simp [updateCosts, h]

/-- C10 witness: the inertness theorem applied to a disabled fixture
layer. -/
theorem disabled_static_layer_inert_witness :
    c10St.cfg.enabled = false
    ∧ updateBounds c10St 0 0 0 1 2 3 4 = ((1, 2, 3, 4), c10St)
    ∧ updateCosts ⟨false, false, c10St.grid⟩ c10St c10St.grid 0 0 1 1
        = c10St.grid :=
  ⟨rfl,
   (disabled_static_layer_inert ⟨false, false, c10St.grid⟩ c10St c10St.grid
     0 0 0 1 2 3 4 0 0 1 1 rfl).1,
   (disabled_static_layer_inert ⟨false, false, c10St.grid⟩ c10St c10St.grid
     0 0 0 1 2 3 4 0 0 1 1 rfl).2⟩

end Nav
